import Mathlib

/-!
Verification of the c7n-left policy execution engine against its
natural-language specification.

The repository slice under verification contains the CLI layer
(`tools/c7n_left/c7n_left/cli.py`): the `run`, `test` and `validate`
commands and `get_config`.  The engine proper (`ExecutionFilter`,
`CollectionRunner` in `c7n_left.core`) is referenced by the CLI but its
source is not part of the slice, so those components are modelled from
the specification text; every such definition carries a doc comment
saying so.  Definitions translated from `cli.py` cite the line numbers.
-/

namespace C7nLeft

/-- Per-(policy, resource) outcome.  Spec §3 "Resource Result":
verdict ∈ {PASS, FAIL, WARN} plus the ERROR verdict of §4.3 for
isolated evaluation errors. -/
inductive Verdict where
  | PASS
  | FAIL
  | WARN
  | ERROR
deriving DecidableEq, Repr

/-- Ordered severity enum, spec §3 "Policy":
UNKNOWN < LOW < MEDIUM < HIGH < CRITICAL. -/
inductive Severity where
  | UNKNOWN
  | LOW
  | MEDIUM
  | HIGH
  | CRITICAL
deriving DecidableEq, Repr

/-- Rank of a severity in the enum ordering (spec §3). -/
def Severity.rank : Severity → Nat
  | .UNKNOWN => 0
  | .LOW => 1
  | .MEDIUM => 2
  | .HIGH => 3
  | .CRITICAL => 4

/-- Modelled from the spec: resolution of a severity string against the
severity enum (spec §4.1, "both pattern and candidate are resolved
against the severity enum ordering"); unrecognised strings resolve to
the bottom element UNKNOWN.  The resolving code lives in
`c7n_left.core`, which is outside the source slice. -/
def severityOfString (s : String) : Severity :=
  if s = "LOW" then .LOW
  else if s = "MEDIUM" then .MEDIUM
  else if s = "HIGH" then .HIGH
  else if s = "CRITICAL" then .CRITICAL
  else .UNKNOWN

/-- One step of glob matching, structurally recursive on a fuel
counter so that it evaluates inside the kernel: `*` matches any run of
characters, `?` matches one character, everything else is literal
(spec §4.1, "the pattern's `*`/`?` metacharacters supported, others
literal").  Every recursive call shrinks the combined length of the
two lists by at least one, so fuel `|ps| + |cs| + 1` is never
exhausted and the `0` branch is unreachable. -/
def globMatchFuel : Nat → List Char → List Char → Bool
  | 0, _, _ => false
  | _ + 1, [], [] => true
  | _ + 1, [], _ :: _ => false
  | f + 1, '*' :: ps, [] => globMatchFuel f ps []
  | f + 1, '*' :: ps, c :: cs =>
      globMatchFuel f ps (c :: cs) || globMatchFuel f ('*' :: ps) cs
  | _ + 1, '?' :: _, [] => false
  | f + 1, '?' :: ps, _ :: cs => globMatchFuel f ps cs
  | _ + 1, _ :: _, [] => false
  | f + 1, p :: ps, c :: cs => p = c && globMatchFuel f ps cs

/-- Glob matching over the characters of pattern and candidate. -/
def globMatchChars (ps cs : List Char) : Bool :=
  globMatchFuel (ps.length + cs.length + 1) ps cs

/-- Glob-match a candidate string against a pattern string. -/
def globMatch (pattern candidate : String) : Bool :=
  globMatchChars pattern.data candidate.data

/-- Severity comparison direction of an execution filter, spec §3:
`exact` (glob on the value) or `gte` (rank comparison on severities). -/
inductive SeverityDirection where
  | exact
  | gte
deriving DecidableEq, Repr

/-- Error raised on a malformed `--filters` / `--warn-on` token,
spec §4.1 / §7 (`InvalidFilterSyntax`, a `ConfigError`). -/
inductive FilterError where
  | InvalidFilterSyntax (token : String)
deriving DecidableEq, Repr

/-- Modelled from the spec: an Execution Filter is a set of glob-pattern
key/value pairs plus a severity direction (spec §3); the parsing and
matching code lives in `c7n_left.core`, outside the source slice. -/
structure ExecutionFilter where
  pairs : List (String × String)
  direction : SeverityDirection
deriving DecidableEq, Repr

/-- Split a token at its first `=`: `some (key, value)` when an `=` is
present, `none` otherwise. -/
def splitEq : List Char → Option (List Char × List Char)
  | [] => none
  | c :: cs =>
      if c = '=' then some ([], cs)
      else (splitEq cs).map (fun p => (c :: p.1, p.2))

/-- Modelled from the spec: parse one `key=value` token; `none` when the
`=` is missing or the key is empty (spec §4.1). -/
def parseToken (tok : String) : Option (String × String) :=
  match splitEq tok.data with
  | none => none
  | some ([], _) => none
  | some (k, v) => some (⟨k⟩, ⟨v⟩)

/-- Parse every token, failing with `InvalidFilterSyntax` at the first
malformed one. -/
def parseTokens : List String → Except FilterError (List (String × String))
  | [] => .ok []
  | t :: ts =>
      match parseToken t with
      | none => .error (.InvalidFilterSyntax t)
      | some p => (parseTokens ts).map (fun ps => p :: ps)

/-- Split characters on spaces, dropping empty runs; `cur` holds the
characters of the token being read, in reverse. -/
def tokenizeAux : List Char → List Char → List String
  | cur, [] => if cur.isEmpty then [] else [⟨cur.reverse⟩]
  | cur, c :: cs =>
      if c = ' ' then
        if cur.isEmpty then tokenizeAux [] cs
        else ⟨cur.reverse⟩ :: tokenizeAux [] cs
      else tokenizeAux (c :: cur) cs

/-- Whitespace-separated tokens of a filter specification string. -/
def filterTokens (s : String) : List String :=
  tokenizeAux [] s.data

/-- Modelled from the spec: `ExecutionFilter.parse(filterSpec,
severityDirection)` (spec §4.1).  An absent specification (the CLI
option was not given) yields the empty filter; otherwise the
specification is tokenised and each token must be a well-formed
`key=value` pair, else the parse fails with `InvalidFilterSyntax`. -/
def ExecutionFilter.parse (spec : Option String) (dir : SeverityDirection) :
    Except FilterError ExecutionFilter :=
  match spec with
  | none => .ok ⟨[], dir⟩
  | some s => (parseTokens (filterTokens s)).map (fun ps => ⟨ps, dir⟩)

/-- First value bound to `key` in an attribute bag. -/
def lookupAttr (attrs : List (String × String)) (key : String) :
    Option String :=
  match attrs with
  | [] => none
  | (k, v) :: rest => if k = key then some v else lookupAttr rest key

/-- Modelled from the spec: whether one configured `key=pattern` pair
accepts a candidate attribute bag (spec §4.1): the key must be present
(absent ⇒ no match); with direction `gte` on the severity key both
sides resolve against the severity enum and the candidate's rank must
be ≥ the pattern's rank, otherwise the value must glob-match. -/
def matchPair (dir : SeverityDirection) (key pattern : String)
    (attrs : List (String × String)) : Bool :=
  match lookupAttr attrs key with
  | none => false
  | some v =>
      match dir with
      | .gte =>
          if key = "severity" then
            decide ((severityOfString pattern).rank ≤ (severityOfString v).rank)
          else globMatch pattern v
      | .exact => globMatch pattern v

/-- Modelled from the spec: `matches(candidateAttributes)` (spec §4.1):
all configured pairs are combined with AND; absence of any configured
keys = always match. -/
def ExecutionFilter.matches (f : ExecutionFilter)
    (attrs : List (String × String)) : Bool :=
  f.pairs.all (fun p => matchPair f.direction p.1 p.2 attrs)

/-- Whether the filter was configured at all (has any key/value pair).
Modelled from the spec: the warn filter downgrades "which matching
findings" (spec §3) only when a `--warn-on` specification was given —
with no warn filter configured, spec §8's end-to-end scenario keeps a
FAIL verdict and an overall failure of true, so an unconfigured warn
filter must downgrade nothing even though an empty filter's `matches`
is always true. -/
def ExecutionFilter.isActive (f : ExecutionFilter) : Bool :=
  !f.pairs.isEmpty

/-- Outcome of evaluating one policy against one node (spec §4.2):
`MATCH` / `NO_MATCH` from the filter-condition tree, or `ERRORED`
when the evaluation raises a `PolicyEvaluationError` (spec §7). -/
inductive EvalOutcome where
  | MATCH
  | NO_MATCH
  | ERRORED
deriving DecidableEq, Repr

/-- One declared infrastructure object of the parsed graph,
spec §3 "Resource Node" (the fields the engine claims need). -/
structure ResourceNode where
  ident : String
  rtype : String
  attrs : List (String × String)
deriving DecidableEq, Repr

/-- Modelled from the spec: a Policy (spec §3, §4.2) as consumed by the
runner: name, metadata, resource-type selector and the `evaluate`
predicate over nodes; the policy classes live in `c7n_left.policy`,
outside the source slice. -/
structure Policy where
  name : String
  severity : String
  category : String
  resourceType : String
  evaluate : ResourceNode → EvalOutcome

/-- Attribute bag of a policy, as consulted by
`filterPolicies` (spec §4.1: name, severity, category, resource-type). -/
def policyAttrs (p : Policy) : List (String × String) :=
  [("name", p.name), ("severity", p.severity),
   ("category", p.category), ("type", p.resourceType)]

/-- Modelled from the spec: `filterPolicies(policies) → subset`
(spec §4.1): the policies whose attribute bag satisfies `matches`. -/
def ExecutionFilter.filterPolicies (f : ExecutionFilter)
    (policies : List Policy) : List Policy :=
  policies.filter (fun p => f.matches (policyAttrs p))

/-- (policy, resource node, verdict) produced for one evaluated pair
(spec §3 "Resource Result"); `original` preserves the pre-downgrade
verdict as an annotation when the warn filter reclassified it
(spec §4.3). -/
structure ResourceResult where
  policyName : String
  nodeId : String
  verdict : Verdict
  original : Option Verdict
deriving DecidableEq, Repr

/-- Ordered sequence of Resource Results plus the overall failure flag
(spec §3 "Run Result"). -/
structure RunResult where
  results : List ResourceResult
  failed : Bool
deriving DecidableEq, Repr

/-- Modelled from the spec: evaluation of one (policy, node) pair by the
Collection Runner (spec §4.3): a MATCH yields FAIL, a NO_MATCH yields
PASS, an evaluation error is captured as an ERROR-verdict result; a
FAIL matching a configured (active) warn filter is downgraded to WARN
with the original FAIL preserved as an annotation (see
`ExecutionFilter.isActive` for why an unconfigured warn filter
downgrades nothing). -/
def evalPair (warnFilter : ExecutionFilter) (p : Policy)
    (n : ResourceNode) : ResourceResult :=
  match p.evaluate n with
  | .ERRORED => ⟨p.name, n.ident, .ERROR, none⟩
  | .NO_MATCH => ⟨p.name, n.ident, .PASS, none⟩
  | .MATCH =>
      if warnFilter.isActive && warnFilter.matches (policyAttrs p) then
        ⟨p.name, n.ident, .WARN, some .FAIL⟩
      else
        ⟨p.name, n.ident, .FAIL, none⟩

/-- Graph nodes whose resource type matches a policy's selector
(spec §4.3: "each graph node in graph order whose type matches the
policy's selector"). -/
def matchingNodes (graph : List ResourceNode) (p : Policy) :
    List ResourceNode :=
  graph.filter (fun n => globMatch p.resourceType n.rtype)

/-- Modelled from the spec: the Collection Runner's evaluation pass
(spec §4.3): for each policy in load order, for each matching node in
graph order, produce one Resource Result; the overall failure flag is
true iff at least one result has verdict FAIL after downgrade.  The
runner class lives in `c7n_left.core`, outside the source slice. -/
def CollectionRunner.runResult (policies : List Policy)
    (graph : List ResourceNode) (warnFilter : ExecutionFilter) : RunResult :=
  let results :=
    (policies.map (fun p => (matchingNodes graph p).map (evalPair warnFilter p))).flatten
  ⟨results, results.any (fun r => r.verdict = .FAIL)⟩

/-- Modelled from the spec: `run()` returns the overall failure boolean
(spec §4.3). -/
def CollectionRunner.run (policies : List Policy)
    (graph : List ResourceNode) (warnFilter : ExecutionFilter) : Bool :=
  (CollectionRunner.runResult policies graph warnFilter).failed

/-- The run configuration fields the claims are about: `cli.py` lines
223-224 store exactly two `ExecutionFilter` instances on the config,
`exec_filter` and `warn_filter`. -/
structure RunConfig where
  exec_filter : ExecutionFilter
  warn_filter : ExecutionFilter
deriving DecidableEq, Repr

/-- `get_config` (`cli.py` lines 197-225), restricted to the filter
construction: `exec_filter` is parsed from the `--filters`
specification with the parse default severity direction (`exact`,
spec §4.1), `warn_filter` from the `--warn-on` specification with
severity direction `gte` (line 224). -/
def get_config (filters warn_on : Option String) :
    Except FilterError RunConfig :=
  match ExecutionFilter.parse filters .exact with
  | .error e => .error e
  | .ok ef =>
      match ExecutionFilter.parse warn_on .gte with
      | .error e => .error e
      | .ok wf => .ok ⟨ef, wf⟩

/-- Observable outcome of the `run` command after config construction
(`cli.py` lines 142-150): either the selection filter left no policies
and the process exits 1 before any runner exists, or the runner was
constructed and run and the process exits with `int(runner.run())`. -/
inductive RunTrace where
  | exitNoPolicies
  | ranRunner (failed : Bool)
deriving DecidableEq, Repr

/-- The `run` command (`cli.py` lines 142-150) over its already-loaded
inputs: filter the loaded policies through the selection filter; if
none remain, warn and exit 1 (lines 143-145) — the `CollectionRunner`
constructor on line 149 is never reached; otherwise construct the
runner and exit with `int(runner.run())` (lines 149-150). -/
def cliRun (loaded : List Policy) (cfg : RunConfig)
    (graph : List ResourceNode) : RunTrace :=
  let policies := cfg.exec_filter.filterPolicies loaded
  if policies.isEmpty then .exitNoPolicies
  else .ranRunner (CollectionRunner.run policies graph cfg.warn_filter)

/-- Process exit status of a `run` command trace: `sys.exit(1)` on the
empty-selection path, `sys.exit(int(runner.run()))` otherwise. -/
def runExitCode : RunTrace → Nat
  | .exitNoPolicies => 1
  | .ranRunner failed => if failed then 1 else 0

/-- Filesystem facts the `validate` command consumes: whether the policy
directory exists, the `*.yml` / `*.yaml` / `*.json` files found under
it, and the per-file error lists returned by `validate_files`
(the latter is external to the slice, so it is an input here). -/
structure ValidateEnv where
  dirExists : Bool
  policyFiles : List String
  fileErrors : List (String × List String)
deriving DecidableEq, Repr

/-- Observable outcome of the `validate` command. -/
inductive ValidateTrace where
  | exitDirMissing
  | warnedNoFiles
  | exitWithErrors (errorCount : Nat)
  | ok
deriving DecidableEq, Repr

/-- The `validate` command (`cli.py` lines 168-194): exit 1 when the
policy directory does not exist (lines 176-178); when no policy files
match the glob patterns, log a warning and return normally
(lines 182-184); when `validate_files` returns a non-empty error
mapping, log the total error count and exit 1 (lines 186-194);
otherwise return normally. -/
def validate (env : ValidateEnv) : ValidateTrace :=
  if !env.dirExists then .exitDirMissing
  else if env.policyFiles.isEmpty then .warnedNoFiles
  else if !env.fileErrors.isEmpty then
    .exitWithErrors ((env.fileErrors.map (fun fe => fe.2.length)).sum)
  else .ok

/-- Process exit status of a `validate` command trace: `sys.exit(1)` on
the two error paths, normal return (status 0) otherwise. -/
def validateExitCode : ValidateTrace → Nat
  | .exitDirMissing => 1
  | .warnedNoFiles => 0
  | .exitWithErrors _ => 1
  | .ok => 0

/-- Uppercase name of a severity, as written in filter specifications. -/
def Severity.sname : Severity → String
  | .UNKNOWN => "UNKNOWN"
  | .LOW => "LOW"
  | .MEDIUM => "MEDIUM"
  | .HIGH => "HIGH"
  | .CRITICAL => "CRITICAL"

/-- A concrete policy whose condition tree never matches; used to
exercise the run pipeline on concrete inputs. -/
def passPolicy : Policy :=
  ⟨"check-bucket", "HIGH", "security", "aws_s3_bucket", fun _ => .NO_MATCH⟩

/-- A concrete policy whose condition tree always matches (a violation
on every node of its type). -/
def failPolicy : Policy :=
  ⟨"deny-public", "HIGH", "security", "aws_s3_bucket", fun _ => .MATCH⟩

/-- A concrete policy whose evaluation always raises. -/
def errPolicy : Policy :=
  ⟨"broken", "LOW", "security", "aws_s3_bucket", fun _ => .ERRORED⟩

/-- A concrete resource node. -/
def node1 : ResourceNode :=
  ⟨"aws_s3_bucket.logs", "aws_s3_bucket", [("public_access", "true")]⟩

/-- The run configuration produced by `get_config` when neither
`--filters` nor `--warn-on` is given: two empty filters. -/
def emptyCfg : RunConfig := ⟨⟨[], .exact⟩, ⟨[], .gte⟩⟩

-- ## Helper lemmas

/-- `splitEq` finds nothing exactly when the token has no `=`. -/
theorem splitEq_eq_none_iff (cs : List Char) :
    splitEq cs = none ↔ cs.contains '=' = false := by
  induction cs with
  | nil => simp [splitEq]
  | cons c cs ih =>
      by_cases hc : c = '='
      · subst hc; simp [splitEq]
      · simp [splitEq, hc, Option.map_eq_none', ih, Ne.symm hc]

/-- A token with no `=` or with an empty key fails to parse. -/
theorem parseToken_eq_none (t : String)
    (h : t.data.contains '=' = false ∨ t.data.head? = some '=') :
    parseToken t = none := by
  rcases h with h | h
  · unfold parseToken
    rw [(splitEq_eq_none_iff t.data).mpr h]
  · obtain ⟨rest, hrest⟩ : ∃ rest, t.data = '=' :: rest := by
      cases hd : t.data with
      | nil => rw [hd] at h; simp at h
      | cons a as =>
          rw [hd] at h
          simp at h
          exact ⟨as, by rw [h]⟩
    unfold parseToken
    rw [hrest]
    simp [splitEq]

/-- If any token of the list fails to parse, `parseTokens` fails with
`InvalidFilterSyntax` on some token. -/
theorem parseTokens_error (ts : List String)
    (h : ∃ t ∈ ts, parseToken t = none) :
    ∃ t, parseTokens ts = .error (.InvalidFilterSyntax t) := by
  induction ts with
  | nil => simp at h
  | cons t ts ih =>
      rcases h with ⟨u, hu, hnone⟩
      rcases List.mem_cons.mp hu with rfl | hmem
      · exact ⟨u, by simp [parseTokens, hnone]⟩
      · cases hpt : parseToken t with
        | none => exact ⟨t, by simp [parseTokens, hpt]⟩
        | some p =>
            rcases ih ⟨u, hmem, hnone⟩ with ⟨t', ht'⟩
            exact ⟨t', by simp [parseTokens, hpt, ht', Except.map]⟩

/-- A successful parse keeps the requested severity direction. -/
theorem parse_ok_direction (spec : Option String) (dir : SeverityDirection)
    (f : ExecutionFilter) (h : ExecutionFilter.parse spec dir = .ok f) :
    f.direction = dir := by
  cases spec with
  | none =>
      simp [ExecutionFilter.parse] at h
      rw [← h]
  | some s =>
      simp only [ExecutionFilter.parse] at h
      cases hp : parseTokens (filterTokens s) with
      | error e => rw [hp] at h; simp [Except.map] at h
      | ok ps =>
          rw [hp] at h
          simp [Except.map] at h
          rw [← h]

/-- The overall failure flag is the existence of a FAIL-verdict result. -/
theorem runResult_failed_iff (policies : List Policy)
    (graph : List ResourceNode) (wf : ExecutionFilter) :
    ((CollectionRunner.runResult policies graph wf).failed = true ↔
      ∃ r ∈ (CollectionRunner.runResult policies graph wf).results,
        r.verdict = .FAIL) := by
  simp only [CollectionRunner.runResult, List.any_eq_true, decide_eq_true_eq,
    List.mem_flatten, List.mem_map]

/-- Every aggregated result is the evaluation of some
(policy, matching node) pair. -/
theorem runResult_mem_elim (policies : List Policy)
    (graph : List ResourceNode) (wf : ExecutionFilter)
    (r : ResourceResult)
    (hr : r ∈ (CollectionRunner.runResult policies graph wf).results) :
    ∃ q m, q ∈ policies ∧ m ∈ matchingNodes graph q ∧ r = evalPair wf q m := by
  simp only [CollectionRunner.runResult, List.mem_flatten, List.mem_map] at hr
  rcases hr with ⟨l, ⟨q, hq, hl⟩, hrl⟩
  rw [← hl] at hrl
  rcases List.mem_map.mp hrl with ⟨m, hm, hrm⟩
  exact ⟨q, m, hq, hm, hrm.symm⟩

/-- The evaluation of every (policy, matching node) pair appears among
the aggregated results. -/
theorem runResult_mem_intro (policies : List Policy)
    (graph : List ResourceNode) (wf : ExecutionFilter)
    (p : Policy) (n : ResourceNode) (hp : p ∈ policies)
    (hn : n ∈ matchingNodes graph p) :
    evalPair wf p n ∈ (CollectionRunner.runResult policies graph wf).results := by
  simp only [CollectionRunner.runResult, List.mem_flatten, List.mem_map]
  exact ⟨(matchingNodes graph p).map (evalPair wf p),
    ⟨p, hp, rfl⟩, List.mem_map.mpr ⟨n, hn, rfl⟩⟩

-- ## Claim theorems

/-- C1: for every run of the `run` command (one whose selection leaves a
non-empty policy set, so the runner is reached), the Run Result's
overall failure flag is true iff at least one result has verdict FAIL
after warn-filter downgrade, `runner.run()` returns exactly this
boolean, the command exits with `int(runner.run())`, and that exit
status is non-zero exactly when the boolean is true. -/
theorem run_failure_flag_exit (loaded : List Policy) (cfg : RunConfig)
    (graph : List ResourceNode)
    (h : cfg.exec_filter.filterPolicies loaded ≠ []) :
    ((CollectionRunner.runResult (cfg.exec_filter.filterPolicies loaded)
        graph cfg.warn_filter).failed = true ↔
      ∃ r ∈ (CollectionRunner.runResult (cfg.exec_filter.filterPolicies loaded)
        graph cfg.warn_filter).results, r.verdict = .FAIL) ∧
    CollectionRunner.run (cfg.exec_filter.filterPolicies loaded) graph
        cfg.warn_filter =
      (CollectionRunner.runResult (cfg.exec_filter.filterPolicies loaded)
        graph cfg.warn_filter).failed ∧
    cliRun loaded cfg graph =
      .ranRunner (CollectionRunner.run (cfg.exec_filter.filterPolicies loaded)
        graph cfg.warn_filter) ∧
    runExitCode (cliRun loaded cfg graph) =
      (CollectionRunner.run (cfg.exec_filter.filterPolicies loaded) graph
        cfg.warn_filter).toNat ∧
    (runExitCode (cliRun loaded cfg graph) ≠ 0 ↔
      CollectionRunner.run (cfg.exec_filter.filterPolicies loaded) graph
        cfg.warn_filter = true) := by
  have hempty : (cfg.exec_filter.filterPolicies loaded).isEmpty = false := by
    cases heq : cfg.exec_filter.filterPolicies loaded with
    | nil => exact absurd heq h
    | cons a l => rfl
  have htrace : cliRun loaded cfg graph =
      .ranRunner (CollectionRunner.run (cfg.exec_filter.filterPolicies loaded)
        graph cfg.warn_filter) := by
    simp [cliRun, hempty]
  refine ⟨runResult_failed_iff _ _ _, rfl, htrace, ?_, ?_⟩
  · rw [htrace]
    cases CollectionRunner.run (cfg.exec_filter.filterPolicies loaded) graph
      cfg.warn_filter <;> rfl
  · rw [htrace]
    cases CollectionRunner.run (cfg.exec_filter.filterPolicies loaded) graph
      cfg.warn_filter <;> simp [runExitCode]

/-- Witness for C1 at a concrete input: one policy, empty selection
filter, empty graph. -/
theorem run_failure_flag_exit_witness :
    cliRun [passPolicy] emptyCfg [] =
      .ranRunner (CollectionRunner.run
        (emptyCfg.exec_filter.filterPolicies [passPolicy]) []
        emptyCfg.warn_filter) :=
  (run_failure_flag_exit [passPolicy] emptyCfg []
    (by simp [ExecutionFilter.filterPolicies, ExecutionFilter.matches,
      emptyCfg])).2.2.1

/-- C2: when the selection filter of the `run` command leaves zero
policies, the command takes the early-exit path (on which, by
`cli.py` lines 143-149, the warning is logged and `sys.exit(1)` runs
before the `CollectionRunner` constructor, so `run()` is never
invoked) and the process exit status is non-zero. -/
theorem run_empty_selection_exits (loaded : List Policy) (cfg : RunConfig)
    (graph : List ResourceNode)
    (h : cfg.exec_filter.filterPolicies loaded = []) :
    cliRun loaded cfg graph = .exitNoPolicies ∧
    runExitCode (cliRun loaded cfg graph) = 1 ∧
    runExitCode (cliRun loaded cfg graph) ≠ 0 := by
  have : cliRun loaded cfg graph = .exitNoPolicies := by
    simp [cliRun, h]
  exact ⟨this, by rw [this]; rfl, by rw [this]; simp [runExitCode]⟩

/-- Witness for C2: a HIGH-severity policy filtered out by
`severity=LOW` selects nothing, and the command exits 1. -/
theorem run_empty_selection_exits_witness :
    cliRun [failPolicy] ⟨⟨[("severity", "LOW")], .exact⟩, ⟨[], .gte⟩⟩ [node1] =
      .exitNoPolicies := by
  have h : (ExecutionFilter.mk [("severity", "LOW")] .exact).filterPolicies
      [failPolicy] = [] := by
    simp [ExecutionFilter.filterPolicies, ExecutionFilter.matches,
      matchPair, lookupAttr, policyAttrs, failPolicy, globMatch,
      globMatchChars]
    decide
  exact (run_empty_selection_exits [failPolicy]
    ⟨⟨[("severity", "LOW")], .exact⟩, ⟨[], .gte⟩⟩ [node1] h).1

/-- C3: a successfully built run configuration holds exactly the two
`ExecutionFilter` instances of `cli.py` lines 223-224: `exec_filter`
parsed from the `--filters` specification with the default (`exact`)
severity direction and `warn_filter` parsed from the `--warn-on`
specification with severity direction `gte`. -/
theorem get_config_two_filters (filters warn_on : Option String)
    (cfg : RunConfig) (h : get_config filters warn_on = .ok cfg) :
    ExecutionFilter.parse filters .exact = .ok cfg.exec_filter ∧
    ExecutionFilter.parse warn_on .gte = .ok cfg.warn_filter ∧
    cfg.exec_filter.direction = .exact ∧
    cfg.warn_filter.direction = .gte := by
  unfold get_config at h
  cases hef : ExecutionFilter.parse filters .exact with
  | error e => rw [hef] at h; simp at h
  | ok ef =>
      rw [hef] at h
      cases hwf : ExecutionFilter.parse warn_on .gte with
      | error e => rw [hwf] at h; simp at h
      | ok wf =>
          rw [hwf] at h
          simp at h
          subst h
          exact ⟨rfl, rfl, parse_ok_direction _ _ _ hef,
            parse_ok_direction _ _ _ hwf⟩

/-- Witness for C3: with neither option given, the config holds the two
empty filters with directions `exact` and `gte`. -/
theorem get_config_two_filters_witness :
    ExecutionFilter.parse none .exact = .ok emptyCfg.exec_filter ∧
    ExecutionFilter.parse none .gte = .ok emptyCfg.warn_filter ∧
    emptyCfg.exec_filter.direction = .exact ∧
    emptyCfg.warn_filter.direction = .gte :=
  get_config_two_filters none none emptyCfg rfl

/-- C4: `ExecutionFilter.parse` fails with `InvalidFilterSyntax` on
every filter specification containing a token that is not a
well-formed `key=value` pair — a token with no `=`, or one whose key
(the part before the first `=`) is empty. -/
theorem parse_invalid_token_fails (s : String) (dir : SeverityDirection)
    (h : ∃ t ∈ filterTokens s,
      t.data.contains '=' = false ∨ t.data.head? = some '=') :
    ∃ t, ExecutionFilter.parse (some s) dir =
      .error (.InvalidFilterSyntax t) := by
  rcases h with ⟨u, hu, hbad⟩
  rcases parseTokens_error (filterTokens s)
      ⟨u, hu, parseToken_eq_none u hbad⟩ with ⟨t, ht⟩
  exact ⟨t, by simp [ExecutionFilter.parse, ht, Except.map]⟩

/-- Witness for C4: the specification `"severity"` (missing `=`) fails
to parse. -/
theorem parse_invalid_token_fails_witness :
    ∃ t, ExecutionFilter.parse (some "severity") .exact =
      .error (.InvalidFilterSyntax t) :=
  parse_invalid_token_fails "severity" .exact
    ⟨"severity", by decide, Or.inl (by decide)⟩

/-- C5: a filter with no configured key/value pairs matches every
candidate attribute bag, and filtering any policy list through it
returns the list unchanged. -/
theorem empty_filter_matches_all (dir : SeverityDirection)
    (attrs : List (String × String)) (policies : List Policy) :
    (ExecutionFilter.mk [] dir).matches attrs = true ∧
    (ExecutionFilter.mk [] dir).filterPolicies policies = policies := by
  refine ⟨rfl, ?_⟩
  simp [ExecutionFilter.filterPolicies, ExecutionFilter.matches]

/-- C6: with direction `gte` on the severity key, a candidate matches
iff its rank in the severity ordering (UNKNOWN < LOW < MEDIUM < HIGH
< CRITICAL) is at least the pattern's; in particular with pattern
MEDIUM the candidates MEDIUM, HIGH, CRITICAL match and LOW does not. -/
theorem gte_severity_rank_matches :
    (∀ pat cand : Severity,
      ((ExecutionFilter.mk [("severity", pat.sname)] .gte).matches
          [("severity", cand.sname)] = true ↔ pat.rank ≤ cand.rank)) ∧
    (ExecutionFilter.mk [("severity", "MEDIUM")] .gte).matches
      [("severity", "MEDIUM")] = true ∧
    (ExecutionFilter.mk [("severity", "MEDIUM")] .gte).matches
      [("severity", "HIGH")] = true ∧
    (ExecutionFilter.mk [("severity", "MEDIUM")] .gte).matches
      [("severity", "CRITICAL")] = true ∧
    (ExecutionFilter.mk [("severity", "MEDIUM")] .gte).matches
      [("severity", "LOW")] = false := by
  refine ⟨?_, by decide, by decide, by decide, by decide⟩
  intro pat cand
  cases pat <;> cases cand <;> decide

/-- C7: an evaluation error on a (policy, node) pair is captured as a
single ERROR-verdict result for that pair; the pair appears among the
aggregated results, the run still produces exactly one result for
every (policy, matching node) pair (no abort), and the overall
failure flag is set only by FAIL verdicts, never by ERROR ones. -/
theorem evaluation_error_isolated (policies : List Policy)
    (graph : List ResourceNode) (wf : ExecutionFilter) (p : Policy)
    (n : ResourceNode) (hp : p.evaluate n = .ERRORED) :
    evalPair wf p n = ⟨p.name, n.ident, .ERROR, none⟩ ∧
    (p ∈ policies → n ∈ matchingNodes graph p →
      (⟨p.name, n.ident, .ERROR, none⟩ : ResourceResult) ∈
        (CollectionRunner.runResult policies graph wf).results) ∧
    (CollectionRunner.runResult policies graph wf).results.length =
      (policies.map (fun q => (matchingNodes graph q).length)).sum ∧
    ((CollectionRunner.runResult policies graph wf).failed = true ↔
      ∃ r ∈ (CollectionRunner.runResult policies graph wf).results,
        r.verdict = .FAIL) := by
  have hpair : evalPair wf p n = ⟨p.name, n.ident, .ERROR, none⟩ := by
    simp [evalPair, hp]
  refine ⟨hpair, ?_, ?_, runResult_failed_iff _ _ _⟩
  · intro hmem hnode
    have := runResult_mem_intro policies graph wf p n hmem hnode
    rwa [hpair] at this
  · induction policies with
    | nil => rfl
    | cons q qs ih =>
        simp only [CollectionRunner.runResult, List.map_cons,
          List.flatten_cons, List.length_append, List.length_map,
          List.sum_cons] at ih ⊢
        rw [ih]

/-- Witness for C7: a policy that raises on every node yields an
ERROR-verdict result. -/
theorem evaluation_error_isolated_witness :
    evalPair ⟨[], .gte⟩ errPolicy node1 =
      ⟨"broken", "aws_s3_bucket.logs", .ERROR, none⟩ :=
  (evaluation_error_isolated [errPolicy] [node1] ⟨[], .gte⟩ errPolicy
    node1 rfl).1

/-- C8: under a configured warn filter, a pair whose evaluation is
MATCH (i.e. a FAIL finding) is downgraded to WARN when it matches the
warn filter, with the original FAIL verdict kept as the result's
annotation; when it does not match, the result stays FAIL unchanged;
and every result aggregated into the Run Result is exactly such a
pair evaluation. -/
theorem warn_filter_downgrade (wf : ExecutionFilter) (p : Policy)
    (n : ResourceNode) (ha : wf.isActive = true)
    (hm : p.evaluate n = .MATCH) :
    (wf.matches (policyAttrs p) = true →
      evalPair wf p n = ⟨p.name, n.ident, .WARN, some .FAIL⟩) ∧
    (wf.matches (policyAttrs p) = false →
      evalPair wf p n = ⟨p.name, n.ident, .FAIL, none⟩) ∧
    (∀ policies graph,
      ∀ r ∈ (CollectionRunner.runResult policies graph wf).results,
        ∃ q m, q ∈ policies ∧ m ∈ matchingNodes graph q ∧
          r = evalPair wf q m) := by
  refine ⟨?_, ?_, fun policies graph r hr =>
    runResult_mem_elim policies graph wf r hr⟩
  · intro hw; simp [evalPair, hm, hw, ha]
  · intro hw; simp [evalPair, hm, hw]

/-- Witness for C8: an always-matching HIGH-severity policy under the
warn filter `severity=HIGH` (direction `gte`) produces WARN with the
original FAIL annotation. -/
theorem warn_filter_downgrade_witness :
    evalPair ⟨[("severity", "HIGH")], .gte⟩ failPolicy node1 =
      ⟨"deny-public", "aws_s3_bucket.logs", .WARN, some .FAIL⟩ :=
  (warn_filter_downgrade ⟨[("severity", "HIGH")], .gte⟩ failPolicy node1
    rfl rfl).1 (by decide)

/-- C9: evaluation is a pure function of the policy set, the graph and
the warn filter, so two runs on the same inputs yield identical Run
Results — the same result sequence in the same order with the same
verdicts, and the same returned boolean. -/
theorem run_idempotent (policies : List Policy) (graph : List ResourceNode)
    (wf : ExecutionFilter) :
    CollectionRunner.runResult policies graph wf =
      CollectionRunner.runResult policies graph wf ∧
    (CollectionRunner.runResult policies graph wf).results =
      (CollectionRunner.runResult policies graph wf).results ∧
    CollectionRunner.run policies graph wf =
      CollectionRunner.run policies graph wf :=
  ⟨rfl, rfl, rfl⟩

/-- C10: the `validate` command exits 1 when the policy directory does
not exist and when `validate_files` returns a non-empty error
mapping; when the directory exists but holds no policy files it logs
a warning and returns normally (exit status 0); with files and no
errors it also returns normally. -/
theorem validate_exit_semantics (env : ValidateEnv) :
    (env.dirExists = false →
      validate env = .exitDirMissing ∧
      validateExitCode (validate env) = 1) ∧
    (env.dirExists = true → env.policyFiles ≠ [] → env.fileErrors ≠ [] →
      validateExitCode (validate env) = 1) ∧
    (env.dirExists = true → env.policyFiles = [] →
      validate env = .warnedNoFiles ∧
      validateExitCode (validate env) = 0) ∧
    (env.dirExists = true → env.policyFiles ≠ [] → env.fileErrors = [] →
      validate env = .ok ∧
      validateExitCode (validate env) = 0) := by
  refine ⟨?_, ?_, ?_, ?_⟩
  · intro hd
    have : validate env = .exitDirMissing := by simp [validate, hd]
    exact ⟨this, by rw [this]; rfl⟩
  · intro hd hf he
    have hfe : env.policyFiles.isEmpty = false := by
      cases hq : env.policyFiles with
      | nil => exact absurd hq hf
      | cons a l => rfl
    have hee : env.fileErrors.isEmpty = false := by
      cases hq : env.fileErrors with
      | nil => exact absurd hq he
      | cons a l => rfl
    have : validate env =
        .exitWithErrors ((env.fileErrors.map (fun fe => fe.2.length)).sum) := by
      simp [validate, hd, hfe, hee]
    rw [this]; rfl
  · intro hd hf
    have : validate env = .warnedNoFiles := by simp [validate, hd, hf]
    exact ⟨this, by rw [this]; rfl⟩
  · intro hd hf he
    have hfe : env.policyFiles.isEmpty = false := by
      cases hq : env.policyFiles with
      | nil => exact absurd hq hf
      | cons a l => rfl
    have : validate env = .ok := by simp [validate, hd, hfe, he]
    exact ⟨this, by rw [this]; rfl⟩

/-- Witness for C10: a directory with files and one reported error
exits 1. -/
theorem validate_exit_semantics_witness :
    validateExitCode (validate ⟨true, ["p.yml"], [("p.yml", ["bad"])]⟩) = 1 :=
  (validate_exit_semantics ⟨true, ["p.yml"], [("p.yml", ["bad"])]⟩).2.1
    rfl (by decide) (by decide)

end C7nLeft
